import Mathlib

/-!
# Verification of the FDA predicate-graph visualizer core

Shallow embedding of the core data model and operations of the
`complizen-home-project` repository:

* the FDA device record type (`src/types/fda.ts`),
* the search filter and the Zustand graph store (`src/stores/graph-store.ts`),
* the node/edge transformations of the graph canvas
  (`src/components/organisms/GraphCanvas.tsx`),
* the layout-strategy boundary and the layout entry point
  (`src/lib/graph/layout-algorithms.ts`),
* the mock data set and its depth computation (`src/lib/mock-data.ts`).

TypeScript arrays become `List`, optional fields become `Option`, and the
recursive depth / rank computations take an explicit fuel argument (`Option`
result) because the source recursions have no termination guard.  Strings in
the data set are ASCII, so `Char.toLower` faithfully models
`String.prototype.toLowerCase` on them.
-/

set_option maxHeartbeats 1000000

/-- Embeds the `FDADevice` interface of `src/types/fda.ts`: the two optional
fields become `Option String`, all others are required. -/
structure FDADevice where
  kNumber : String
  deviceName : String
  manufacturer : String
  clearanceDate : String
  productClass : String
  productCode : String
  predicateDevices : List String
  intendedUse : String
  panelType : Option String
  regulationNumber : Option String
deriving Repr, DecidableEq

/-- JavaScript `String.prototype.includes`: `sub` occurs contiguously in `s`.
Implemented over the character list; `""` is a substring of everything, as in
JavaScript. -/
def strIncludes (s sub : String) : Bool :=
  s.toList.tails.any (fun t => sub.toList.isPrefixOf t)

/-- `String.prototype.toLowerCase`, restricted to ASCII (all strings in the
repository's data are ASCII): lower-cases every character. -/
def toLowerCase (s : String) : String :=
  String.mk (s.toList.map Char.toLower)

/-- Embeds `filterDevices` of `src/stores/graph-store.ts`.  The source guard is
`!searchTerm || searchTerm.length < 2`; an empty string has length `0 < 2`, so
the guard collapses to the length test. -/
def filterDevices (devices : List FDADevice) (searchTerm : String) :
    List FDADevice :=
  if searchTerm.length < 2 then devices
  else
    let lowerSearchTerm := toLowerCase searchTerm
    devices.filter (fun device =>
      strIncludes (toLowerCase device.kNumber) lowerSearchTerm ||
      strIncludes (toLowerCase device.deviceName) lowerSearchTerm ||
      strIncludes (toLowerCase device.manufacturer) lowerSearchTerm ||
      strIncludes (toLowerCase device.productClass) lowerSearchTerm ||
      ((device.panelType.map
        (fun pt => strIncludes (toLowerCase pt) lowerSearchTerm)).getD false))

/-- The spec's matching policy (§4.3 / §8), stated independently of the code:
at least one of the searchable fields — k-number identifier, device name,
manufacturer, product class, optional panel type — contains the query as a
case-insensitive substring. -/
def specDeviceMatches (query : String) (device : FDADevice) : Bool :=
  strIncludes (toLowerCase device.kNumber) (toLowerCase query) ||
  strIncludes (toLowerCase device.deviceName) (toLowerCase query) ||
  strIncludes (toLowerCase device.manufacturer) (toLowerCase query) ||
  strIncludes (toLowerCase device.productClass) (toLowerCase query) ||
  ((device.panelType.map
    (fun pt => strIncludes (toLowerCase pt) (toLowerCase query))).getD false)

/-- The `K861712` record of `mockDevices` (`src/lib/mock-data.ts`), named
because the spec's concrete examples (§8) are stated on it. -/
def devK861712 : FDADevice :=
  { kNumber := "K861712"
    deviceName := "CardioFlow Balloon Catheter System"
    manufacturer := "Boston Scientific Corporation"
    clearanceDate := "1986-08-15"
    productClass := "II"
    productCode := "DTK"
    predicateDevices := []
    intendedUse := "Percutaneous transluminal coronary angioplasty for treatment of coronary artery disease"
    panelType := some "Cardiovascular"
    regulationNumber := some "870.5200" }

/-- The `K921156` record of `mockDevices`, named for the spec's examples. -/
def devK921156 : FDADevice :=
  { kNumber := "K921156"
    deviceName := "CardioFlow Plus Balloon Catheter"
    manufacturer := "Boston Scientific Corporation"
    clearanceDate := "1992-04-18"
    productClass := "II"
    productCode := "DTK"
    predicateDevices := ["K861712"]
    intendedUse := "Enhanced percutaneous transluminal coronary angioplasty with improved balloon technology"
    panelType := some "Cardiovascular"
    regulationNumber := some "870.5200" }

/-- The `K021234` record of `mockDevices`, named for the spec's examples. -/
def devK021234 : FDADevice :=
  { kNumber := "K021234"
    deviceName := "CardioFlow Elite Drug-Eluting Stent"
    manufacturer := "Abbott Laboratories"
    clearanceDate := "2002-03-12"
    productClass := "III"
    productCode := "NIR"
    predicateDevices := ["K921156", "K861712"]
    intendedUse := "Drug-eluting coronary stent for prevention of restenosis"
    panelType := some "Cardiovascular"
    regulationNumber := some "870.5300" }

/-- Embeds the `mockDevices` array of `src/lib/mock-data.ts`, in source order.
The three records the spec's examples name are the shared definitions above;
all field values are verbatim from the source. -/
def mockDevices : List FDADevice :=
  [ devK861712,
    { kNumber := "K851234"
      deviceName := "OrthoMax Hip Prosthesis"
      manufacturer := "Zimmer Biomet Holdings Inc."
      clearanceDate := "1985-06-20"
      productClass := "II"
      productCode := "HWC"
      predicateDevices := []
      intendedUse := "Total hip replacement for patients with severe hip joint disease"
      panelType := some "Orthopedic"
      regulationNumber := some "888.3300" },
    { kNumber := "K843567"
      deviceName := "NeuroStim Deep Brain Stimulator"
      manufacturer := "Medtronic Inc."
      clearanceDate := "1984-11-10"
      productClass := "III"
      productCode := "GZF"
      predicateDevices := []
      intendedUse := "Deep brain stimulation for treatment of Parkinson's disease tremor"
      panelType := some "Neurology"
      regulationNumber := some "882.5800" },
    { kNumber := "K871445"
      deviceName := "OptiView Contact Lens"
      manufacturer := "Johnson & Johnson Vision Care"
      clearanceDate := "1987-03-25"
      productClass := "II"
      productCode := "MHW"
      predicateDevices := []
      intendedUse := "Vision correction for myopia and hyperopia"
      panelType := some "Ophthalmic"
      regulationNumber := some "886.5916" },
    { kNumber := "K882234"
      deviceName := "UltraSound Diagnostic System"
      manufacturer := "GE HealthCare Technologies Inc."
      clearanceDate := "1988-09-12"
      productClass := "II"
      productCode := "IYO"
      predicateDevices := []
      intendedUse := "Real-time ultrasonic imaging for diagnostic purposes"
      panelType := some "Radiology"
      regulationNumber := some "892.1550" },
    { kNumber := "K863445"
      deviceName := "SurgiClamp Hemostatic Device"
      manufacturer := "Ethicon Inc."
      clearanceDate := "1986-12-08"
      productClass := "I"
      productCode := "GAG"
      predicateDevices := []
      intendedUse := "Control of bleeding during surgical procedures"
      panelType := some "General Surgery"
      regulationNumber := some "878.4400" },
    devK921156,
    { kNumber := "K933567"
      deviceName := "OrthoMax Pro Hip System"
      manufacturer := "Zimmer Biomet Holdings Inc."
      clearanceDate := "1993-07-22"
      productClass := "II"
      productCode := "HWC"
      predicateDevices := ["K851234"]
      intendedUse := "Advanced total hip replacement with improved bearing surfaces"
      panelType := some "Orthopedic"
      regulationNumber := some "888.3300" },
    { kNumber := "K914423"
      deviceName := "NeuroStim Advanced DBS System"
      manufacturer := "Medtronic Inc."
      clearanceDate := "1991-10-15"
      productClass := "III"
      productCode := "GZF"
      predicateDevices := ["K843567"]
      intendedUse := "Advanced deep brain stimulation with programmable parameters"
      panelType := some "Neurology"
      regulationNumber := some "882.5800" },
    { kNumber := "K945678"
      deviceName := "OptiView Toric Contact Lens"
      manufacturer := "Johnson & Johnson Vision Care"
      clearanceDate := "1994-05-30"
      productClass := "II"
      productCode := "MHW"
      predicateDevices := ["K871445"]
      intendedUse := "Vision correction for astigmatism with toric design"
      panelType := some "Ophthalmic"
      regulationNumber := some "886.5916" },
    { kNumber := "K952234"
      deviceName := "UltraSound Pro Imaging System"
      manufacturer := "GE HealthCare Technologies Inc."
      clearanceDate := "1995-08-14"
      productClass := "II"
      productCode := "IYO"
      predicateDevices := ["K882234"]
      intendedUse := "Enhanced ultrasonic imaging with digital processing"
      panelType := some "Radiology"
      regulationNumber := some "892.1550" },
    { kNumber := "K934456"
      deviceName := "SurgiClamp Advanced Hemostatic System"
      manufacturer := "Ethicon Inc."
      clearanceDate := "1993-11-20"
      productClass := "II"
      productCode := "GAG"
      predicateDevices := ["K863445"]
      intendedUse := "Advanced hemostatic control with bipolar technology"
      panelType := some "General Surgery"
      regulationNumber := some "878.4400" },
    devK021234,
    { kNumber := "K015567"
      deviceName := "OrthoMax Ceramic Hip System"
      manufacturer := "DePuy Synthes"
      clearanceDate := "2001-09-25"
      productClass := "II"
      productCode := "HWC"
      predicateDevices := ["K933567", "K851234"]
      intendedUse := "Ceramic-on-ceramic hip replacement for younger patients"
      panelType := some "Orthopedic"
      regulationNumber := some "888.3300" },
    { kNumber := "K033445"
      deviceName := "NeuroStim MRI-Compatible DBS"
      manufacturer := "Abbott Neuromodulation"
      clearanceDate := "2003-12-08"
      productClass := "III"
      productCode := "GZF"
      predicateDevices := ["K914423"]
      intendedUse := "MRI-compatible deep brain stimulation system"
      panelType := some "Neurology"
      regulationNumber := some "882.5800" },
    { kNumber := "K041156"
      deviceName := "OptiView Daily Disposable Lens"
      manufacturer := "Alcon Inc."
      clearanceDate := "2004-06-15"
      productClass := "II"
      productCode := "MHW"
      predicateDevices := ["K945678", "K871445"]
      intendedUse := "Daily disposable contact lens for convenience and hygiene"
      panelType := some "Ophthalmic"
      regulationNumber := some "886.5916" },
    { kNumber := "K053322"
      deviceName := "UltraSound 4D Imaging System"
      manufacturer := "Philips Healthcare"
      clearanceDate := "2005-04-20"
      productClass := "II"
      productCode := "IYO"
      predicateDevices := ["K952234"]
      intendedUse := "Four-dimensional ultrasonic imaging for obstetric applications"
      panelType := some "Radiology"
      regulationNumber := some "892.1550" },
    { kNumber := "K123456"
      deviceName := "CardioFlow Smart Stent System"
      manufacturer := "Boston Scientific Corporation"
      clearanceDate := "2012-08-30"
      productClass := "III"
      productCode := "NIR"
      predicateDevices := ["K021234", "K921156"]
      intendedUse := "Smart drug-eluting stent with bioresorbable polymer"
      panelType := some "Cardiovascular"
      regulationNumber := some "870.5300" },
    { kNumber := "K134567"
      deviceName := "OrthoMax Smart Hip Implant"
      manufacturer := "Stryker Corporation"
      clearanceDate := "2013-11-18"
      productClass := "II"
      productCode := "HWC"
      predicateDevices := ["K015567", "K933567"]
      intendedUse := "Smart hip implant with wear-resistant coating"
      panelType := some "Orthopedic"
      regulationNumber := some "888.3300" },
    { kNumber := "K145678"
      deviceName := "NeuroStim Closed-Loop DBS"
      manufacturer := "Medtronic Inc."
      clearanceDate := "2014-07-22"
      productClass := "III"
      productCode := "GZF"
      predicateDevices := ["K033445", "K914423"]
      intendedUse := "Closed-loop deep brain stimulation with adaptive algorithms"
      panelType := some "Neurology"
      regulationNumber := some "882.5800" },
    { kNumber := "K156789"
      deviceName := "OptiView Smart Contact Lens"
      manufacturer := "Google LLC"
      clearanceDate := "2015-12-10"
      productClass := "II"
      productCode := "MHW"
      predicateDevices := ["K041156", "K945678"]
      intendedUse := "Smart contact lens with glucose monitoring capability"
      panelType := some "Ophthalmic"
      regulationNumber := some "886.5916" },
    { kNumber := "K172234"
      deviceName := "HeartWatch Cardiac Monitor"
      manufacturer := "Apple Inc."
      clearanceDate := "2017-09-12"
      productClass := "II"
      productCode := "MNI"
      predicateDevices := []
      intendedUse := "Continuous cardiac rhythm monitoring for atrial fibrillation detection"
      panelType := some "Cardiovascular"
      regulationNumber := some "870.2300" },
    { kNumber := "K183445"
      deviceName := "SkinSense Dermatology Scanner"
      manufacturer := "3M Company"
      clearanceDate := "2018-05-25"
      productClass := "II"
      productCode := "ONA"
      predicateDevices := []
      intendedUse := "Non-invasive skin lesion analysis and documentation"
      panelType := some "Dermatology"
      regulationNumber := some "892.2050" },
    { kNumber := "K191156"
      deviceName := "BreatheEasy CPAP System"
      manufacturer := "ResMed Inc."
      clearanceDate := "2019-03-15"
      productClass := "II"
      productCode := "BZH"
      predicateDevices := []
      intendedUse := "Continuous positive airway pressure therapy for sleep apnea"
      panelType := some "Anesthesiology"
      regulationNumber := some "868.5905" },
    { kNumber := "K201234"
      deviceName := "BreatheEasy Auto CPAP"
      manufacturer := "ResMed Inc."
      clearanceDate := "2020-07-20"
      productClass := "II"
      productCode := "BZH"
      predicateDevices := ["K191156"]
      intendedUse := "Auto-adjusting CPAP therapy with smart pressure algorithms"
      panelType := some "Anesthesiology"
      regulationNumber := some "868.5905" },
    { kNumber := "K212345"
      deviceName := "HeartWatch Pro Cardiac Monitor"
      manufacturer := "Apple Inc."
      clearanceDate := "2021-10-08"
      productClass := "II"
      productCode := "MNI"
      predicateDevices := ["K172234"]
      intendedUse := "Advanced cardiac monitoring with ECG and blood oxygen"
      panelType := some "Cardiovascular"
      regulationNumber := some "870.2300" },
    { kNumber := "K223456"
      deviceName := "SkinSense AI Dermatology Assistant"
      manufacturer := "3M Company"
      clearanceDate := "2022-04-14"
      productClass := "II"
      productCode := "ONA"
      predicateDevices := ["K183445"]
      intendedUse := "AI-powered skin lesion analysis with diagnostic recommendations"
      panelType := some "Dermatology"
      regulationNumber := some "892.2050" },
    { kNumber := "K234567"
      deviceName := "DiabetesGuard Continuous Monitor"
      manufacturer := "Dexcom Inc."
      clearanceDate := "2023-01-30"
      productClass := "II"
      productCode := "NBW"
      predicateDevices := []
      intendedUse := "Continuous glucose monitoring for diabetes management"
      panelType := some "Clinical Chemistry"
      regulationNumber := some "862.1355" },
    { kNumber := "K245678"
      deviceName := "DiabetesGuard Pro CGM System"
      manufacturer := "Dexcom Inc."
      clearanceDate := "2024-06-18"
      productClass := "II"
      productCode := "NBW"
      predicateDevices := ["K234567"]
      intendedUse := "Advanced continuous glucose monitoring with smartphone integration"
      panelType := some "Clinical Chemistry"
      regulationNumber := some "862.1355" },
    { kNumber := "K231189"
      deviceName := "RoboSurg Laparoscopic System"
      manufacturer := "Intuitive Surgical Inc."
      clearanceDate := "2023-08-22"
      productClass := "II"
      productCode := "IQP"
      predicateDevices := []
      intendedUse := "Robotic-assisted laparoscopic surgery for minimally invasive procedures"
      panelType := some "General Surgery"
      regulationNumber := some "878.4800" },
    { kNumber := "K241190"
      deviceName := "RoboSurg AI Laparoscopic Platform"
      manufacturer := "Intuitive Surgical Inc."
      clearanceDate := "2024-11-15"
      productClass := "II"
      productCode := "IQP"
      predicateDevices := ["K231189", "K934456"]
      intendedUse := "AI-enhanced robotic surgery with automated guidance systems"
      panelType := some "General Surgery"
      regulationNumber := some "878.4800" } ]

/-- The three-device graph used by the spec's concrete examples (§8): one
root, one child, one grandchild; these are the identically-named records of
`mockDevices`. -/
def threeDevices : List FDADevice :=
  [devK861712, devK921156, devK021234]

/-- A 2D coordinate; the source's `position : { x, y }`. -/
structure Position where
  x : Int
  y : Int
deriving Repr, DecidableEq

/-- The `metadata` block of `DeviceNodeData` (`src/types/graph.ts`). -/
structure NodeMetadata where
  childrenCount : Nat
  predicateCount : Nat
  hierarchyDepth : Nat
deriving Repr, DecidableEq

/-- `DeviceNodeData` of `src/types/graph.ts` (the optional `colorOverride`
presentation field is never set by the code under verification and is
omitted). -/
structure DeviceNodeData where
  label : String
  device : FDADevice
  isSelected : Bool
  metadata : NodeMetadata
deriving Repr, DecidableEq

/-- `GraphNode` of `src/types/graph.ts`: the fields the transformation code
sets (`type` is the constant `"deviceNode"` and is omitted). -/
structure GraphNode where
  id : String
  position : Position
  data : DeviceNodeData
  draggable : Bool
deriving Repr, DecidableEq

/-- `GraphEdge` of `src/types/graph.ts` restricted to the semantic fields the
code sets: `id`, `source`, `target` and `data.relationshipType`.  The
constant presentation fields (`type`, `animated`, `style`, `markerEnd`) are
omitted. -/
structure GraphEdge where
  id : String
  source : String
  target : String
  relationshipType : String
deriving Repr, DecidableEq

/-- The edge object `transformDevicesToEdges` pushes for one
`(device, predicateKNumber)` pair (`GraphCanvas.tsx`, lines 138-155). -/
def mkPredicateEdge (predicateKNumber : String) (device : FDADevice) :
    GraphEdge :=
  { id := predicateKNumber ++ "-" ++ device.kNumber
    source := predicateKNumber
    target := device.kNumber
    relationshipType := "predicate" }

/-- Embeds `transformDevicesToEdges` of `GraphCanvas.tsx`: the nested
`forEach`/`push` loops become nested left folds over an accumulator. -/
def transformDevicesToEdges (devices : List FDADevice) : List GraphEdge :=
  devices.foldl
    (fun edges device =>
      device.predicateDevices.foldl
        (fun es predicateKNumber => es ++ [mkPredicateEdge predicateKNumber device])
        edges)
    []

/-- Embeds `shouldUseDagre` of `src/lib/graph/layout-algorithms.ts`:
`nodeCount <= 500`. -/
def shouldUseDagre (nodeCount : Nat) : Bool :=
  nodeCount ≤ 500

/-- The Dagre configuration object of `src/lib/graph/layout-algorithms.ts`. -/
structure DagreConfig where
  rankdir : String
  nodesep : Nat
  ranksep : Nat
  marginx : Nat
  marginy : Nat
deriving Repr, DecidableEq

/-- `DAGRE_CONFIG` of `src/lib/graph/layout-algorithms.ts`. -/
def DAGRE_CONFIG : DagreConfig :=
  { rankdir := "TB", nodesep := 80, ranksep := 120, marginx := 50, marginy := 50 }

/-- The node box width `getLayoutedElements` registers with dagre. -/
def dagreNodeWidth : Nat := 180

/-- The node box height `getLayoutedElements` registers with dagre. -/
def dagreNodeHeight : Nat := 60

/-- Totalizing `Option`-valued map: `some` of the list of results when every
element succeeds, `none` as soon as one fails.  Used to embed the recursive
computations that need fuel. -/
def collectSome (f : α → Option β) : List α → Option (List β)
  | [] => some []
  | a :: as =>
    match f a, collectSome f as with
    | some b, some bs => some (b :: bs)
    | _, _ => none

/-- The `(source, target)` endpoint pairs of an edge list; the layout model
depends on edges only through these. -/
def edgePairs (edges : List GraphEdge) : List (String × String) :=
  edges.map (fun e => (e.source, e.target))

/-- Modelled from the spec: predecessors of a node in the forward adjacency
(§4.1) — the sources of the edges targeting it.  The layout itself lives in
the external `dagre` library, which is not part of the repository's sources. -/
def predecessorsOf (pairs : List (String × String)) (id : String) :
    List String :=
  (pairs.filter (fun p => p.2 = id)).map (fun p => p.1)

/-- Modelled from the spec: rank assignment of §4.2 — `rank(n) = 1 +
max(rank(p) for p in predicates(n))`, or `0` if no predicates; the external
`dagre` library that computes layers in the source is not under `src/`.  The
recursion carries fuel; on an acyclic graph any fuel above the longest path
length returns `some`. -/
def rankOf (pairs : List (String × String)) : Nat → String → Option Nat
  | 0, _ => none
  | fuel + 1, id =>
    if predecessorsOf pairs id = [] then some 0
    else
      match collectSome (fun p => rankOf pairs fuel p) (predecessorsOf pairs id) with
      | none => none
      | some rs => some (rs.foldl max 0 + 1)

/-- Modelled from the spec: the vertical coordinate of a rank in the
top-to-bottom layout — margin plus rank index times (node height plus
inter-rank spacing), §4.2 stage 3. -/
def rankY (rank : Nat) : Nat :=
  DAGRE_CONFIG.marginy + rank * (dagreNodeHeight + DAGRE_CONFIG.ranksep)

/-- Modelled from the spec: the horizontal coordinate from the within-rank
index — margin plus index times (node width plus inter-node spacing).  The
spec's barycenter refinement (§4.2 stage 2) is taken at its deterministic
tie-breaking instance, original input order, which no claim depends on. -/
def rankX (idx : Nat) : Nat :=
  DAGRE_CONFIG.marginx + idx * (dagreNodeWidth + DAGRE_CONFIG.nodesep)

/-- Modelled from the spec: the coordinate the layout assigns to `id`, given
the node ids in input order and the edge endpoint pairs.  `fuel` for the rank
recursion is the node count; ids whose rank computation runs out of fuel
(only possible on cyclic inputs, which the spec excludes) sit at rank 0. -/
def dagrePositionOf (ids : List String) (pairs : List (String × String))
    (id : String) : Position :=
  let r := (rankOf pairs ids.length id).getD 0
  let sameRank := ids.filter (fun i => (rankOf pairs ids.length i).getD 0 = r)
  { x := (rankX (sameRank.indexOf id) : Nat), y := (rankY r : Nat) }

/-- Modelled from the spec: `getLayoutedElements` of
`src/lib/graph/layout-algorithms.ts` delegates to the external `dagre`
library; per §4.2 it returns the same nodes with positions computed from the
graph structure alone — here from the id list and the edge endpoint pairs. -/
def getLayoutedElements (nodes : List GraphNode) (edges : List GraphEdge) :
    List GraphNode :=
  nodes.map (fun n =>
    { n with position := dagrePositionOf (nodes.map (fun m => m.id)) (edgePairs edges) n.id })

/-- The un-positioned nodes `transformDevicesToNodes` builds before layout
(`GraphCanvas.tsx`, lines 75-96). -/
def initialDeviceNodes (devices : List FDADevice) (selectedId : Option String) :
    List GraphNode :=
  devices.map (fun device =>
    { id := device.kNumber
      position := { x := 0, y := 0 }
      data :=
        { label := device.deviceName
          device := device
          isSelected := selectedId == some device.kNumber
          metadata :=
            { childrenCount :=
                (devices.filter (fun d => d.predicateDevices.contains device.kNumber)).length
              predicateCount := device.predicateDevices.length
              hierarchyDepth := 0 } }
      draggable := true })

/-- Embeds `transformDevicesToNodes` of `GraphCanvas.tsx`: build initial
nodes, build edges, then either run the (modelled) Dagre layout when
`shouldUseDagre` holds or fall back to the 6-column grid
`x = (index % 6) * 200, y = floor(index / 6) * 150`. -/
def transformDevicesToNodes (devices : List FDADevice)
    (selectedId : Option String) : List GraphNode :=
  let initialNodes := initialDeviceNodes devices selectedId
  let edges := transformDevicesToEdges devices
  if shouldUseDagre devices.length then
    getLayoutedElements initialNodes edges
  else
    initialNodes.enum.map (fun p =>
      { p.2 with position := { x := ((p.1 % 6) * 200 : Nat), y := ((p.1 / 6) * 150 : Nat) } })

/-- The state slice of the Zustand store of `src/stores/graph-store.ts`:
`selectedNodeId`, `searchTerm`, `filteredDevices`, `isSearching`. -/
structure GraphStoreState where
  selectedNodeId : Option String
  searchTerm : String
  filteredDevices : List FDADevice
  isSearching : Bool
deriving Repr, DecidableEq

/-- `initialState` of `src/stores/graph-store.ts`. -/
def initialState : GraphStoreState :=
  { selectedNodeId := none
    searchTerm := ""
    filteredDevices := []
    isSearching := false }

/-- `setSelectedNode` action: `set({ selectedNodeId: id })`. -/
def setSelectedNode (s : GraphStoreState) (id : Option String) :
    GraphStoreState :=
  { s with selectedNodeId := id }

/-- `setSearchTerm` action: `set({ searchTerm: term })`. -/
def setSearchTerm (s : GraphStoreState) (term : String) : GraphStoreState :=
  { s with searchTerm := term }

/-- `setFilteredDevices` action: `set({ filteredDevices: devices })`. -/
def setFilteredDevices (s : GraphStoreState) (devices : List FDADevice) :
    GraphStoreState :=
  { s with filteredDevices := devices }

/-- `setIsSearching` action: `set({ isSearching: loading })`. -/
def setIsSearching (s : GraphStoreState) (loading : Bool) : GraphStoreState :=
  { s with isSearching := loading }

/-- `performSearch` action: filters `mockDevices` by the term, then sets both
`searchTerm` and `filteredDevices`. -/
def performSearch (s : GraphStoreState) (searchTerm : String) :
    GraphStoreState :=
  { s with
    searchTerm := searchTerm
    filteredDevices := filterDevices mockDevices searchTerm }

/-- `clearSelection` action. -/
def clearSelection (s : GraphStoreState) : GraphStoreState :=
  { s with selectedNodeId := none }

/-- `clearSearch` action: empties the term, the filtered list and the loading
flag. -/
def clearSearch (s : GraphStoreState) : GraphStoreState :=
  { s with searchTerm := "", filteredDevices := [], isSearching := false }

/-- `resetStore` action: back to `initialState`. -/
def resetStore (_s : GraphStoreState) : GraphStoreState :=
  initialState

/-- `getDisplayDevices` of `src/stores/graph-store.ts`:
`searchTerm ? filteredDevices : mockDevices` — the term is truthy exactly
when it is non-empty. -/
def getDisplayDevices (s : GraphStoreState) : List FDADevice :=
  if s.searchTerm = "" then mockDevices else s.filteredDevices

/-- Embeds `getDeviceDepth` of `src/lib/mock-data.ts`.  The source recursion
closes over the module-level `mockDevices`; it is parameterised here by that
device list.  It has no termination guard in the source, so the embedding
carries fuel: `none` means the recursion budget ran out.  A cited predicate
id with no matching device contributes `0` (the `predicateDevice ? ... : 0`
branch); `Math.max(...depths) + 1` becomes a left fold with seed `0`, which
agrees with it on the non-empty lists it is applied to. -/
def getDeviceDepth (devices : List FDADevice) : Nat → FDADevice → Option Nat
  | 0, _ => none
  | fuel + 1, device =>
    if device.predicateDevices = [] then some 0
    else
      match collectSome
          (fun predicateKNumber =>
            match devices.find? (fun d => d.kNumber = predicateKNumber) with
            | some predicateDevice => getDeviceDepth devices fuel predicateDevice
            | none => some 0)
          device.predicateDevices with
      | none => none
      | some predicateDepths => some (predicateDepths.foldl max 0 + 1)

/-- The lookup step `getDeviceDepth` actually recurses through: `d` cites
`pd` when some entry of `d.predicateDevices` resolves to `pd` via
`mockDevices.find`. -/
def citesVia (devices : List FDADevice) (d pd : FDADevice) : Prop :=
  ∃ p, p ∈ d.predicateDevices ∧
    devices.find? (fun x => x.kNumber = p) = some pd

/-- Acyclicity of the predicate-citation relation over a device list, stated
as the existence of a strictly decreasing measure along citations — the
standard finite-graph characterization of having no directed cycle. -/
def AcyclicCitations (devices : List FDADevice) : Prop :=
  ∃ m : String → Nat, ∀ d pd, d ∈ devices → citesVia devices d pd →
    m pd.kNumber < m d.kNumber

/-- Modelled from the spec: one round of Kahn's algorithm (§4.1, validation
step 3) — the repository has no validation code, so the topological check is
taken from the spec's words.  Keeps exactly the records that still have an
in-set predicate (in-degree above zero); the others are the removed roots. -/
def kahnStep (devices : List FDADevice) : List FDADevice :=
  devices.filter (fun d =>
    !(d.predicateDevices.all (fun p =>
      (devices.find? (fun x => x.kNumber = p)).isNone)))

/-- Modelled from the spec: exhaust in-degree-zero removal (§4.1).  Iterating
`kahnStep` node-count many times removes every node of an acyclic record
set; leftovers indicate a cycle. -/
def kahnRemaining : Nat → List FDADevice → List FDADevice
  | 0, devices => devices
  | fuel + 1, devices => kahnRemaining fuel (kahnStep devices)

/-- Modelled from the spec: the `CyclicGraph` validation condition of §4.1 —
nodes left unordered after exhausting in-degree-zero removal. -/
def specHasCycle (devices : List FDADevice) : Bool :=
  !(kahnRemaining devices.length devices).isEmpty

/-- Modelled from the spec: the `DuplicateNode` validation condition of §4.1
— two records sharing an id. -/
def specHasDuplicateIds (devices : List FDADevice) : Bool :=
  !((devices.map (fun d => d.kNumber)).Nodup : Prop)

/-- Modelled from the spec: the `DanglingReference` validation condition of
§4.1 — a record citing a predicate id absent from the record set. -/
def specHasDangling (devices : List FDADevice) : Bool :=
  devices.any (fun d =>
    d.predicateDevices.any (fun p =>
      (devices.find? (fun x => x.kNumber = p)).isNone))

/-- Test record `KA`, citing `KB`: half of a two-cycle. -/
def devKA : FDADevice :=
  { kNumber := "KA", deviceName := "Device A", manufacturer := "M",
    clearanceDate := "2020-01-01", productClass := "II", productCode := "AAA",
    predicateDevices := ["KB"], intendedUse := "test",
    panelType := none, regulationNumber := none }

/-- Test record `KB`, citing `KA`: the other half of the two-cycle. -/
def devKB : FDADevice :=
  { kNumber := "KB", deviceName := "Device B", manufacturer := "M",
    clearanceDate := "2020-01-02", productClass := "II", productCode := "BBB",
    predicateDevices := ["KA"], intendedUse := "test",
    panelType := none, regulationNumber := none }

/-- A two-record set whose citations form the directed cycle
`KA → KB → KA` (the spec's §8 example shape `A→B→A`). -/
def cyclicRecords : List FDADevice :=
  [devKA, devKB]

/-- A two-record set with a duplicated id `KD`. -/
def duplicateRecords : List FDADevice :=
  [ { kNumber := "KD", deviceName := "Device D1", manufacturer := "M",
      clearanceDate := "2020-01-01", productClass := "II", productCode := "DDD",
      predicateDevices := [], intendedUse := "test",
      panelType := none, regulationNumber := none },
    { kNumber := "KD", deviceName := "Device D2", manufacturer := "M",
      clearanceDate := "2020-01-02", productClass := "II", productCode := "DDD",
      predicateDevices := [], intendedUse := "test",
      panelType := none, regulationNumber := none } ]

/-- A record citing the predicate id `KMISSING`, which no record carries. -/
def danglingDevice : FDADevice :=
  { kNumber := "KC", deviceName := "Device C", manufacturer := "M",
    clearanceDate := "2020-01-01", productClass := "II", productCode := "CCC",
    predicateDevices := ["KMISSING"], intendedUse := "test",
    panelType := none, regulationNumber := none }

/-- The one-record set containing only `danglingDevice`. -/
def danglingRecords : List FDADevice :=
  [danglingDevice]

/-- The endpoint pairs of the three-device example graph's edges. -/
def threePairs : List (String × String) :=
  edgePairs (transformDevicesToEdges threeDevices)

/-- A citation measure for the three-device example graph: generation depth,
strictly decreasing from a citing device to its cited predicate. -/
def exampleMeasure : String → Nat :=
  fun s => if s = "K861712" then 0 else if s = "K921156" then 1 else 2

/-! ## Helper lemmas -/

/-- Pushing through a left fold is appending the mapped list. -/
theorem foldl_append_singleton (f : α → β) (l : List α) :
    ∀ acc : List β, l.foldl (fun es a => es ++ [f a]) acc = acc ++ l.map f := by
  induction l with
  | nil => intro acc; simp
  | cons a as ih => intro acc; simp [List.foldl_cons, ih]

/-- `transformDevicesToEdges` in closed form: one edge per
`(device, cited predicate id)` pair, in input order. -/
theorem transformDevicesToEdges_eq (devices : List FDADevice) :
    transformDevicesToEdges devices =
      devices.flatMap
        (fun d => d.predicateDevices.map (fun p => mkPredicateEdge p d)) := by
  suffices h : ∀ acc : List GraphEdge,
      devices.foldl
        (fun edges device =>
          device.predicateDevices.foldl
            (fun es p => es ++ [mkPredicateEdge p device]) edges) acc =
      acc ++ devices.flatMap
        (fun d => d.predicateDevices.map (fun p => mkPredicateEdge p d)) by
    simpa [transformDevicesToEdges] using h []
  induction devices with
  | nil => intro acc; simp
  | cons d ds ih =>
    intro acc
    simp only [List.foldl_cons, List.flatMap_cons]
    rw [foldl_append_singleton (fun p => mkPredicateEdge p d) d.predicateDevices acc, ih]
    simp [List.append_assoc]

/-- `collectSome` succeeds when every element computation succeeds. -/
theorem collectSome_isSome (f : α → Option β) (l : List α)
    (h : ∀ a ∈ l, (f a).isSome) : (collectSome f l).isSome := by
  induction l with
  | nil => simp [collectSome]
  | cons a as ih =>
    obtain ⟨b, hb⟩ := Option.isSome_iff_exists.mp (h a (List.mem_cons_self a as))
    obtain ⟨bs, hbs⟩ := Option.isSome_iff_exists.mp
      (ih (fun x hx => h x (List.mem_cons_of_mem a hx)))
    simp [collectSome, hb, hbs]

/-- Every input element of a successful `collectSome` run produced some
output element. -/
theorem collectSome_mem (f : α → Option β) :
    ∀ (l : List α) (bs : List β), collectSome f l = some bs →
      ∀ a ∈ l, ∃ b, b ∈ bs ∧ f a = some b := by
  intro l
  induction l with
  | nil => intro bs _ a ha; simp at ha
  | cons x xs ih =>
    intro bs h a ha
    rw [show collectSome f (x :: xs) =
        match f x, collectSome f xs with
        | some b, some bs => some (b :: bs)
        | _, _ => none from rfl] at h
    cases hfx : f x with
    | none => rw [hfx] at h; simp at h
    | some b =>
      cases hxs : collectSome f xs with
      | none => rw [hfx, hxs] at h; simp at h
      | some bs' =>
        rw [hfx, hxs] at h
        simp only [Option.some.injEq] at h
        subst h
        rcases List.mem_cons.mp ha with rfl | ha'
        · exact ⟨b, List.mem_cons_self b bs', hfx⟩
        · obtain ⟨c, hc, hfc⟩ := ih bs' hxs a ha'
          exact ⟨c, List.mem_cons_of_mem b hc, hfc⟩

/-- A successful `collectSome` run survives replacing the element function by
one that agrees on every success. -/
theorem collectSome_mono (f g : α → Option β)
    (hfg : ∀ a b, f a = some b → g a = some b) :
    ∀ (l : List α) (bs : List β),
      collectSome f l = some bs → collectSome g l = some bs := by
  intro l
  induction l with
  | nil => intro bs h; simpa [collectSome] using h
  | cons x xs ih =>
    intro bs h
    rw [show collectSome f (x :: xs) =
        match f x, collectSome f xs with
        | some b, some bs => some (b :: bs)
        | _, _ => none from rfl] at h
    cases hfx : f x with
    | none => rw [hfx] at h; simp at h
    | some b =>
      cases hxs : collectSome f xs with
      | none => rw [hfx, hxs] at h; simp at h
      | some bs' =>
        rw [hfx, hxs] at h
        show (match g x, collectSome g xs with
          | some b, some bs => some (b :: bs)
          | _, _ => none) = some bs
        rw [hfg x b hfx, ih bs' hxs]
        exact h

/-- `collectSome` of functions agreeing on the list coincide. -/
theorem collectSome_congr (f g : α → Option β) :
    ∀ l : List α, (∀ a ∈ l, f a = g a) → collectSome f l = collectSome g l := by
  intro l
  induction l with
  | nil => intro _; rfl
  | cons x xs ih =>
    intro h
    show (match f x, collectSome f xs with
      | some b, some bs => some (b :: bs)
      | _, _ => none) =
      match g x, collectSome g xs with
      | some b, some bs => some (b :: bs)
      | _, _ => none
    rw [h x (List.mem_cons_self x xs), ih (fun a ha => h a (List.mem_cons_of_mem x ha))]

/-- `collectSome` of a constant success is the constant list. -/
theorem collectSome_const (c : β) :
    ∀ l : List α, collectSome (fun _ => some c) l = some (l.map (fun _ => c)) := by
  intro l
  induction l with
  | nil => rfl
  | cons x xs ih => simp [collectSome, ih]

/-- The seed is below a `max` fold. -/
theorem le_foldl_max_init : ∀ (l : List Nat) (acc : Nat), acc ≤ l.foldl max acc := by
  intro l
  induction l with
  | nil => intro acc; simp
  | cons x xs ih =>
    intro acc
    simpa [List.foldl_cons] using le_trans (le_max_left acc x) (ih (max acc x))

/-- Every member is below a `max` fold. -/
theorem mem_le_foldl_max : ∀ (l : List Nat) (acc b : Nat), b ∈ l → b ≤ l.foldl max acc := by
  intro l
  induction l with
  | nil => intro acc b hb; simp at hb
  | cons x xs ih =>
    intro acc b hb
    simp only [List.foldl_cons]
    rcases List.mem_cons.mp hb with rfl | hb'
    · exact le_trans (le_max_right acc b) (le_foldl_max_init xs (max acc b))
    · exact ih (max acc x) b hb'

/-- A `max` fold of zeros from seed zero is zero. -/
theorem foldl_max_zeros : ∀ l : List Nat, (∀ x ∈ l, x = 0) → l.foldl max 0 = 0 := by
  intro l
  induction l with
  | nil => intro _; rfl
  | cons x xs ih =>
    intro h
    have hx := h x (List.mem_cons_self x xs)
    subst hx
    simpa [List.foldl_cons] using ih (fun y hy => h y (List.mem_cons_of_mem _ hy))

/-- A successful rank computation is stable under one more unit of fuel. -/
theorem rankOf_mono_succ (pairs : List (String × String)) :
    ∀ (fuel : Nat) (id : String) (v : Nat),
      rankOf pairs fuel id = some v → rankOf pairs (fuel + 1) id = some v := by
  intro fuel
  induction fuel with
  | zero => intro id v h; simp [rankOf] at h
  | succ f ih =>
    intro id v h
    rw [show rankOf pairs (f + 1) id =
        (if predecessorsOf pairs id = [] then some 0
         else
           match collectSome (fun p => rankOf pairs f p) (predecessorsOf pairs id) with
           | none => none
           | some rs => some (rs.foldl max 0 + 1)) from rfl] at h
    rw [show rankOf pairs (f + 1 + 1) id =
        (if predecessorsOf pairs id = [] then some 0
         else
           match collectSome (fun p => rankOf pairs (f + 1) p) (predecessorsOf pairs id) with
           | none => none
           | some rs => some (rs.foldl max 0 + 1)) from rfl]
    by_cases hp : predecessorsOf pairs id = []
    · rw [if_pos hp] at h; rw [if_pos hp]; exact h
    · rw [if_neg hp] at h; rw [if_neg hp]
      cases hcs : collectSome (fun p => rankOf pairs f p) (predecessorsOf pairs id) with
      | none => rw [hcs] at h; simp at h
      | some rs =>
        rw [hcs] at h
        rw [collectSome_mono (fun p => rankOf pairs f p) (fun p => rankOf pairs (f + 1) p)
          (fun a b hab => ih a b hab) (predecessorsOf pairs id) rs hcs]
        exact h

/-- A successful rank computation is stable under any additional fuel. -/
theorem rankOf_mono_le (pairs : List (String × String)) (id : String) (v : Nat)
    {f f' : Nat} (hle : f ≤ f') (h : rankOf pairs f id = some v) :
    rankOf pairs f' id = some v := by
  induction hle with
  | refl => exact h
  | step _ ih => exact rankOf_mono_succ pairs _ id v ih

/-- Along an edge of the graph, any two successfully computed ranks are
strictly ordered: the source (predicate) is strictly below the target
(dependent). -/
theorem rankOf_lt_of_edge (pairs : List (String × String)) (fuel : Nat)
    (src tgt : String) (hmem : (src, tgt) ∈ pairs) (rd rp : Nat)
    (htgt : rankOf pairs fuel tgt = some rd)
    (hsrc : rankOf pairs fuel src = some rp) : rp < rd := by
  cases fuel with
  | zero => simp [rankOf] at htgt
  | succ f =>
    have hpred : src ∈ predecessorsOf pairs tgt := by
      simp only [predecessorsOf, List.mem_map, List.mem_filter]
      exact ⟨(src, tgt), ⟨hmem, by simp⟩, rfl⟩
    have hne : predecessorsOf pairs tgt ≠ [] := by
      intro h0; rw [h0] at hpred; simp at hpred
    rw [show rankOf pairs (f + 1) tgt =
        (if predecessorsOf pairs tgt = [] then some 0
         else
           match collectSome (fun p => rankOf pairs f p) (predecessorsOf pairs tgt) with
           | none => none
           | some rs => some (rs.foldl max 0 + 1)) from rfl] at htgt
    rw [if_neg hne] at htgt
    cases hcs : collectSome (fun p => rankOf pairs f p) (predecessorsOf pairs tgt) with
    | none => rw [hcs] at htgt; simp at htgt
    | some rs =>
      rw [hcs] at htgt
      simp only [Option.some.injEq] at htgt
      obtain ⟨w, hw_mem, hw⟩ :=
        collectSome_mem (fun p => rankOf pairs f p) (predecessorsOf pairs tgt) rs hcs src hpred
      have hws : rankOf pairs (f + 1) src = some w := rankOf_mono_succ pairs f src w hw
      rw [hsrc] at hws
      simp only [Option.some.injEq] at hws
      subst hws
      have hle : rp ≤ rs.foldl max 0 := mem_le_foldl_max rs 0 rp hw_mem
      omega

/-- A successful depth computation is stable under one more unit of fuel. -/
theorem getDeviceDepth_mono_succ (devices : List FDADevice) :
    ∀ (fuel : Nat) (d : FDADevice) (v : Nat),
      getDeviceDepth devices fuel d = some v →
      getDeviceDepth devices (fuel + 1) d = some v := by
  intro fuel
  induction fuel with
  | zero => intro d v h; simp [getDeviceDepth] at h
  | succ f ih =>
    intro d v h
    rw [show getDeviceDepth devices (f + 1) d =
        (if d.predicateDevices = [] then some 0
         else
           match collectSome
               (fun p =>
                 match devices.find? (fun x => x.kNumber = p) with
                 | some pd => getDeviceDepth devices f pd
                 | none => some 0)
               d.predicateDevices with
           | none => none
           | some ds => some (ds.foldl max 0 + 1)) from rfl] at h
    rw [show getDeviceDepth devices (f + 1 + 1) d =
        (if d.predicateDevices = [] then some 0
         else
           match collectSome
               (fun p =>
                 match devices.find? (fun x => x.kNumber = p) with
                 | some pd => getDeviceDepth devices (f + 1) pd
                 | none => some 0)
               d.predicateDevices with
           | none => none
           | some ds => some (ds.foldl max 0 + 1)) from rfl]
    by_cases hp : d.predicateDevices = []
    · rw [if_pos hp] at h; rw [if_pos hp]; exact h
    · rw [if_neg hp] at h; rw [if_neg hp]
      cases hcs : collectSome
          (fun p =>
            match devices.find? (fun x => x.kNumber = p) with
            | some pd => getDeviceDepth devices f pd
            | none => some 0)
          d.predicateDevices with
      | none => rw [hcs] at h; simp at h
      | some ds =>
        rw [hcs] at h
        rw [collectSome_mono _ _
          (fun a b hab => by
            cases hfind : devices.find? (fun x => x.kNumber = a) with
            | some pd =>
              rw [hfind] at hab
              exact ih pd b hab
            | none =>
              rw [hfind] at hab
              exact hab)
          d.predicateDevices ds hcs]
        exact h

/-- With a measure that strictly decreases along citations, fuel
`m(d) + 1` is enough for the depth recursion on any member `d`. -/
theorem getDeviceDepth_isSome_of_measure (devices : List FDADevice)
    (m : String → Nat)
    (hm : ∀ d pd, d ∈ devices → citesVia devices d pd →
      m pd.kNumber < m d.kNumber) :
    ∀ (n : Nat) (d : FDADevice), d ∈ devices → m d.kNumber ≤ n →
      (getDeviceDepth devices (n + 1) d).isSome := by
  intro n
  induction n with
  | zero =>
    intro d hd hle
    rw [show getDeviceDepth devices 1 d =
        (if d.predicateDevices = [] then some 0
         else
           match collectSome
               (fun p =>
                 match devices.find? (fun x => x.kNumber = p) with
                 | some pd => getDeviceDepth devices 0 pd
                 | none => some 0)
               d.predicateDevices with
           | none => none
           | some ds => some (ds.foldl max 0 + 1)) from rfl]
    by_cases hp : d.predicateDevices = []
    · rw [if_pos hp]; rfl
    · rw [if_neg hp]
      have hs : (collectSome
          (fun p =>
            match devices.find? (fun x => x.kNumber = p) with
            | some pd => getDeviceDepth devices 0 pd
            | none => some 0)
          d.predicateDevices).isSome := by
        apply collectSome_isSome
        intro p hp'
        show ((match devices.find? (fun x => x.kNumber = p) with
          | some pd => getDeviceDepth devices 0 pd
          | none => some 0 : Option Nat)).isSome
        cases hfind : devices.find? (fun x => x.kNumber = p) with
        | some pd =>
          have hlt := hm d pd hd ⟨p, hp', hfind⟩
          exact absurd hlt (by omega)
        | none => rfl
      obtain ⟨ds, hds⟩ := Option.isSome_iff_exists.mp hs
      rw [hds]; rfl
  | succ k ih =>
    intro d hd hle
    rw [show getDeviceDepth devices (k + 1 + 1) d =
        (if d.predicateDevices = [] then some 0
         else
           match collectSome
               (fun p =>
                 match devices.find? (fun x => x.kNumber = p) with
                 | some pd => getDeviceDepth devices (k + 1) pd
                 | none => some 0)
               d.predicateDevices with
           | none => none
           | some ds => some (ds.foldl max 0 + 1)) from rfl]
    by_cases hp : d.predicateDevices = []
    · rw [if_pos hp]; rfl
    · rw [if_neg hp]
      have hs : (collectSome
          (fun p =>
            match devices.find? (fun x => x.kNumber = p) with
            | some pd => getDeviceDepth devices (k + 1) pd
            | none => some 0)
          d.predicateDevices).isSome := by
        apply collectSome_isSome
        intro p hp'
        show ((match devices.find? (fun x => x.kNumber = p) with
          | some pd => getDeviceDepth devices (k + 1) pd
          | none => some 0 : Option Nat)).isSome
        cases hfind : devices.find? (fun x => x.kNumber = p) with
        | some pd =>
          have hlt := hm d pd hd ⟨p, hp', hfind⟩
          exact ih pd (List.mem_of_find?_eq_some hfind) (by omega)
        | none => rfl
      obtain ⟨ds, hds⟩ := Option.isSome_iff_exists.mp hs
      rw [hds]; rfl

/-- A successfully computed depth is zero exactly for devices citing no
predicates. -/
theorem getDeviceDepth_eq_zero_iff (devices : List FDADevice) (fuel : Nat)
    (d : FDADevice) (r : Nat) (h : getDeviceDepth devices fuel d = some r) :
    r = 0 ↔ d.predicateDevices = [] := by
  cases fuel with
  | zero => simp [getDeviceDepth] at h
  | succ f =>
    rw [show getDeviceDepth devices (f + 1) d =
        (if d.predicateDevices = [] then some 0
         else
           match collectSome
               (fun p =>
                 match devices.find? (fun x => x.kNumber = p) with
                 | some pd => getDeviceDepth devices f pd
                 | none => some 0)
               d.predicateDevices with
           | none => none
           | some ds => some (ds.foldl max 0 + 1)) from rfl] at h
    by_cases hp : d.predicateDevices = []
    · rw [if_pos hp] at h
      simp only [Option.some.injEq] at h
      constructor
      · intro _; exact hp
      · intro _; omega
    · rw [if_neg hp] at h
      cases hcs : collectSome
          (fun p =>
            match devices.find? (fun x => x.kNumber = p) with
            | some pd => getDeviceDepth devices f pd
            | none => some 0)
          d.predicateDevices with
      | none => rw [hcs] at h; simp at h
      | some ds =>
        rw [hcs] at h
        simp only [Option.some.injEq] at h
        constructor
        · intro hr; exfalso; omega
        · intro hpe; exact absurd hpe hp

/-- A device whose cited predicate ids all fail to resolve gets depth `1`
(each missing predicate contributes `0`), with no error. -/
theorem getDeviceDepth_missing_preds (devices : List FDADevice) (fuel : Nat)
    (d : FDADevice) (hne : d.predicateDevices ≠ [])
    (hmiss : ∀ p ∈ d.predicateDevices,
      devices.find? (fun x => x.kNumber = p) = none) :
    getDeviceDepth devices (fuel + 1) d = some 1 := by
  rw [show getDeviceDepth devices (fuel + 1) d =
      (if d.predicateDevices = [] then some 0
       else
         match collectSome
             (fun p =>
               match devices.find? (fun x => x.kNumber = p) with
               | some pd => getDeviceDepth devices fuel pd
               | none => some 0)
             d.predicateDevices with
         | none => none
         | some ds => some (ds.foldl max 0 + 1)) from rfl]
  rw [if_neg hne]
  have hcongr : collectSome
      (fun p =>
        match devices.find? (fun x => x.kNumber = p) with
        | some pd => getDeviceDepth devices fuel pd
        | none => some 0)
      d.predicateDevices =
      collectSome (fun _ => some 0) d.predicateDevices := by
    apply collectSome_congr
    intro p hp
    show (match devices.find? (fun x => x.kNumber = p) with
      | some pd => getDeviceDepth devices fuel pd
      | none => some 0) = some 0
    rw [hmiss p hp]
  rw [hcongr, collectSome_const]
  show some ((d.predicateDevices.map (fun _ => (0 : Nat))).foldl max 0 + 1) = some 1
  have hz : (d.predicateDevices.map (fun _ => (0 : Nat))).foldl max 0 = 0 := by
    apply foldl_max_zeros
    intro x hx
    obtain ⟨a, _, rfl⟩ := List.mem_map.mp hx
    rfl
  rw [hz]

/-! ## Claim theorems -/

/-- **C1** (counterexample): a record set whose citations form the directed
cycle `KA → KB → KA` is flagged cyclic by the spec's own Kahn check, yet the
code's graph construction accepts it and yields a full graph — both nodes and
both edges — instead of failing with `CyclicGraph`.  No validation runs
before a record set is turned into a graph. -/
theorem build_accepts_cyclic_records :
    specHasCycle cyclicRecords = true ∧
    (transformDevicesToNodes cyclicRecords none).map (fun n => n.id) =
      ["KA", "KB"] ∧
    transformDevicesToEdges cyclicRecords =
      [mkPredicateEdge "KB" devKA, mkPredicateEdge "KA" devKB] := by
  decide

/-- **C1** (amended): building the graph performs no validation at all —
every record set, including ones with duplicate ids, dangling predicate
references, or cyclic citations, yields a graph with one node per record (in
input order, id = k-number) and one edge per citation; no failure is
possible. -/
theorem build_never_rejects :
    (∀ (devices : List FDADevice) (sel : Option String),
      (transformDevicesToNodes devices sel).map (fun n => n.id) =
        devices.map (fun d => d.kNumber)) ∧
    specHasDuplicateIds duplicateRecords = true ∧
    (transformDevicesToNodes duplicateRecords none).map (fun n => n.id) =
      ["KD", "KD"] ∧
    specHasDangling danglingRecords = true ∧
    transformDevicesToEdges danglingRecords =
      [mkPredicateEdge "KMISSING" danglingDevice] := by
  refine ⟨?_, by decide, by decide, by decide, by decide⟩
  intro devices sel
  by_cases h : shouldUseDagre devices.length = true
  · rw [show transformDevicesToNodes devices sel =
        getLayoutedElements (initialDeviceNodes devices sel)
          (transformDevicesToEdges devices) from by
      simp [transformDevicesToNodes, h]]
    simp only [getLayoutedElements, initialDeviceNodes, List.map_map]
    rfl
  · rw [show transformDevicesToNodes devices sel =
        (initialDeviceNodes devices sel).enum.map (fun p =>
          { p.2 with position :=
              { x := ((p.1 % 6) * 200 : Nat), y := ((p.1 / 6) * 150 : Nat) } }) from by
      simp [transformDevicesToNodes, h]]
    rw [List.map_map]
    rw [show ((fun n : GraphNode => n.id) ∘ (fun p : Nat × GraphNode =>
        { p.2 with position :=
            { x := ((p.1 % 6) * 200 : Nat), y := ((p.1 / 6) * 150 : Nat) } })) =
        ((fun n : GraphNode => n.id) ∘ Prod.snd) from rfl]
    rw [← List.map_map, List.enum_map_snd]
    simp only [initialDeviceNodes, List.map_map]
    rfl

/-- **C2** (counterexample): on the three-device graph, the query `"K92"`
does match exactly `{K921156}`, but the edge set the code computes for the
visible devices is `{K861712-K921156}` — an edge whose source endpoint
`K861712` is filtered out — not the empty set the claim requires. -/
theorem filter_policy_counterexample :
    filterDevices threeDevices "K92" = [devK921156] ∧
    transformDevicesToEdges (filterDevices threeDevices "K92") =
      [mkPredicateEdge "K861712" devK921156] ∧
    (mkPredicateEdge "K861712" devK921156).source = "K861712" ∧
    ((filterDevices threeDevices "K92").map (fun d => d.kNumber)).contains
      "K861712" = false := by
  decide

/-- **C2** (amended): the code does not restrict edges to visible endpoints —
for every device list and query, the edge set computed for the visible
subgraph is one edge per citation of each visible device, whether or not the
cited predicate is itself visible; for the query `"K92"` on the three-device
graph the matched set is `{K921156}` and the computed edge set is the single
dangling edge `K861712-K921156` (its suppression is left to the external
renderer). -/
theorem visible_edges_not_endpoint_filtered :
    (∀ (devices : List FDADevice) (query : String),
      transformDevicesToEdges (filterDevices devices query) =
        (filterDevices devices query).flatMap
          (fun d => d.predicateDevices.map (fun p => mkPredicateEdge p d))) ∧
    (transformDevicesToEdges (filterDevices threeDevices "K92")).map
      (fun e => e.id) = ["K861712-K921156"] :=
  ⟨fun devices query => transformDevicesToEdges_eq (filterDevices devices query),
   by decide⟩

/-- **C3**: whenever the modelled rank assignment computes ranks for both
endpoints of an edge, the dependent (target) ranks strictly above the
predicate (source), and its vertical coordinate in the top-to-bottom layout
is strictly larger; concretely, on the three-device graph the ranks are
`0 < 1 < 2` and the laid-out y coordinates are `50 < 230 < 410`. -/
theorem layout_rank_monotone :
    (∀ (pairs : List (String × String)) (fuel : Nat) (src tgt : String)
      (rd rp : Nat),
      (src, tgt) ∈ pairs →
      rankOf pairs fuel tgt = some rd →
      rankOf pairs fuel src = some rp →
      rp < rd ∧ rankY rp < rankY rd) ∧
    (rankOf threePairs 3 "K861712" = some 0 ∧
     rankOf threePairs 3 "K921156" = some 1 ∧
     rankOf threePairs 3 "K021234" = some 2) ∧
    (transformDevicesToNodes threeDevices none).map
      (fun n => (n.id, n.position.y)) =
      [("K861712", (50 : Int)), ("K921156", 230), ("K021234", 410)] := by
  refine ⟨?_, by decide, by decide⟩
  intro pairs fuel src tgt rd rp hmem htgt hsrc
  have hlt := rankOf_lt_of_edge pairs fuel src tgt hmem rd rp htgt hsrc
  refine ⟨hlt, ?_⟩
  show 50 + rp * (60 + 120) < 50 + rd * (60 + 120)
  omega

/-- Witness for C3: the edge `(K861712, K921156)` of the example graph, where
the computed ranks are `0` and `1`. -/
theorem layout_rank_monotone_witness :
    (0 : Nat) < 1 ∧ rankY 0 < rankY 1 :=
  layout_rank_monotone.1 threePairs 3 "K861712" "K921156" 1 0
    (by decide) (by decide) (by decide)

/-- **C4**: the modelled layout is deterministic — two runs on the same
input are identical — and moreover its coordinates depend only on the node
id sequence and the edge endpoint pairs, so any two inputs agreeing on those
(whatever their labels, selection flags or other payload) receive identical
coordinates. -/
theorem layout_deterministic :
    (∀ (nodes : List GraphNode) (edges : List GraphEdge),
      getLayoutedElements nodes edges = getLayoutedElements nodes edges) ∧
    (∀ (devices : List FDADevice) (sel : Option String),
      transformDevicesToNodes devices sel = transformDevicesToNodes devices sel) ∧
    (∀ (nodes nodes' : List GraphNode) (edges edges' : List GraphEdge),
      nodes.map (fun n => n.id) = nodes'.map (fun n => n.id) →
      edgePairs edges = edgePairs edges' →
      (getLayoutedElements nodes edges).map (fun n => n.position) =
        (getLayoutedElements nodes' edges').map (fun n => n.position)) := by
  refine ⟨fun _ _ => rfl, fun _ _ => rfl, ?_⟩
  intro nodes nodes' edges edges' hids hpairs
  have key : ∀ (ns : List GraphNode) (es : List GraphEdge),
      (getLayoutedElements ns es).map (fun n => n.position) =
        (ns.map (fun m => m.id)).map
          (fun i => dagrePositionOf (ns.map (fun m => m.id)) (edgePairs es) i) := by
    intro ns es
    simp only [getLayoutedElements, List.map_map]
    rfl
  rw [key, key, hids, hpairs]

/-- Witness for C4: the three-device node lists with no selection and with
`K921156` selected differ as values but agree on ids and edges, so the
layout places them identically. -/
theorem layout_deterministic_witness :
    (getLayoutedElements (initialDeviceNodes threeDevices none)
        (transformDevicesToEdges threeDevices)).map (fun n => n.position) =
      (getLayoutedElements (initialDeviceNodes threeDevices (some "K921156"))
        (transformDevicesToEdges threeDevices)).map (fun n => n.position) :=
  layout_deterministic.2.2
    (initialDeviceNodes threeDevices none)
    (initialDeviceNodes threeDevices (some "K921156"))
    (transformDevicesToEdges threeDevices)
    (transformDevicesToEdges threeDevices)
    (by decide) rfl

/-- **C5**: the search filter returns the whole device list for queries
shorter than two characters, and otherwise exactly the devices with a
case-insensitive substring match in one of the searchable fields (k-number,
device name, manufacturer, product class, optional panel type); concretely,
`"a"` matches all of `mockDevices` and `"k86"` matches exactly the two
devices whose ids contain it. -/
theorem filterDevices_spec :
    (∀ (devices : List FDADevice) (searchTerm : String),
      filterDevices devices searchTerm =
        if searchTerm.length < 2 then devices
        else devices.filter (specDeviceMatches searchTerm)) ∧
    filterDevices mockDevices "a" = mockDevices ∧
    (filterDevices mockDevices "k86").map (fun d => d.kNumber) =
      ["K861712", "K863445"] := by
  refine ⟨fun devices searchTerm => rfl, rfl, by decide⟩

/-- **C6** (counterexample): `X999999` is no device id, yet selecting it
changes the stored selection from `none` to `some "X999999"` — the store
performs no membership check, so the selection is not left unchanged. -/
theorem setSelectedNode_unknown_id_changes_state :
    (mockDevices.map (fun d => d.kNumber)).contains "X999999" = false ∧
    initialState.selectedNodeId = none ∧
    (setSelectedNode initialState (some "X999999")).selectedNodeId =
      some "X999999" := by
  decide

/-- **C6** (amended): `setSelectedNode` stores whatever id it is given,
without validating membership in the device set — it never throws, touches
no other state field, and selecting `null` clears the selection; an unknown
id therefore becomes the stored selection rather than being ignored. -/
theorem setSelectedNode_spec :
    ∀ (s : GraphStoreState) (id : Option String),
      (setSelectedNode s id).selectedNodeId = id ∧
      (setSelectedNode s id).searchTerm = s.searchTerm ∧
      (setSelectedNode s id).filteredDevices = s.filteredDevices ∧
      (setSelectedNode s id).isSearching = s.isSearching ∧
      (setSelectedNode s none).selectedNodeId = none :=
  fun _ _ => ⟨rfl, rfl, rfl, rfl, rfl⟩

/-- **C7** (counterexample): after the exposed `clearSearch` operation the
stored filtered set is `[]` while the stored query is `""`, but filtering the
full device set with `""` returns every device — the stored matched set is
not the filter of the stored query, so it is not derived state. -/
theorem clearSearch_breaks_derivation :
    (clearSearch initialState).filteredDevices ≠
      filterDevices mockDevices (clearSearch initialState).searchTerm := by
  decide

/-- **C7** (amended): only `performSearch` keeps the pair consistent — after
it, the stored filtered set equals the filter of the full device set by the
stored term — while `setFilteredDevices` changes the matched set without
touching the query (and `setSearchTerm` the converse), so the invariant does
not hold after arbitrary operation sequences; the display helper compensates
by ignoring the filtered set whenever the query is empty. -/
theorem performSearch_restores_derivation :
    (∀ (s : GraphStoreState) (term : String),
      (performSearch s term).filteredDevices = filterDevices mockDevices term ∧
      (performSearch s term).searchTerm = term ∧
      (performSearch s term).selectedNodeId = s.selectedNodeId) ∧
    (∀ s : GraphStoreState, getDisplayDevices (performSearch s "") = mockDevices) ∧
    (∀ (s : GraphStoreState) (devices : List FDADevice),
      (setFilteredDevices s devices).searchTerm = s.searchTerm ∧
      (setFilteredDevices s devices).filteredDevices = devices) ∧
    (∀ (s : GraphStoreState) (term : String),
      (setSearchTerm s term).filteredDevices = s.filteredDevices ∧
      (setSearchTerm s term).searchTerm = term) :=
  ⟨fun _ _ => ⟨rfl, rfl, rfl⟩, fun _ => rfl,
   fun _ _ => ⟨rfl, rfl⟩, fun _ _ => ⟨rfl, rfl⟩⟩

/-- **C8**: the layout-strategy boundary sits at exactly 500 nodes —
`shouldUseDagre` accepts 500 and rejects 501, and the node transformation
runs the hierarchical (Dagre) layout exactly for device lists of at most 500
records, falling back to the 6-column grid
`x = (i % 6) * 200, y = (i / 6) * 150` above it. -/
theorem shouldUseDagre_boundary :
    shouldUseDagre 500 = true ∧
    shouldUseDagre 501 = false ∧
    (∀ (devices : List FDADevice) (sel : Option String),
      transformDevicesToNodes devices sel =
        if devices.length ≤ 500 then
          getLayoutedElements (initialDeviceNodes devices sel)
            (transformDevicesToEdges devices)
        else
          (initialDeviceNodes devices sel).enum.map (fun p =>
            { p.2 with position :=
                { x := ((p.1 % 6) * 200 : Nat),
                  y := ((p.1 / 6) * 150 : Nat) } })) := by
  refine ⟨rfl, rfl, ?_⟩
  intro devices sel
  by_cases h : devices.length ≤ 500
  · simp [transformDevicesToNodes, shouldUseDagre, h]
  · simp [transformDevicesToNodes, shouldUseDagre, h]

/-- **C9**: the edge builder emits exactly one edge per
`(device, cited predicate id)` pair in input order — so the edge count is the
sum of the predicate-list lengths — with source the predicate id, target the
citing device's k-number, and id `"<predicateId>-<kNumber>"`; it checks
nothing, so a citation of an id with no corresponding device still produces
its edge. -/
theorem transformDevicesToEdges_spec :
    (∀ devices : List FDADevice,
      transformDevicesToEdges devices =
        devices.flatMap
          (fun d => d.predicateDevices.map (fun p => mkPredicateEdge p d))) ∧
    (∀ devices : List FDADevice,
      (transformDevicesToEdges devices).length =
        (devices.map (fun d => d.predicateDevices.length)).sum) ∧
    (∀ (p : String) (d : FDADevice),
      (mkPredicateEdge p d).source = p ∧
      (mkPredicateEdge p d).target = d.kNumber ∧
      (mkPredicateEdge p d).id = p ++ "-" ++ d.kNumber) ∧
    transformDevicesToEdges danglingRecords =
      [mkPredicateEdge "KMISSING" danglingDevice] := by
  refine ⟨transformDevicesToEdges_eq, ?_, fun p d => ⟨rfl, rfl, rfl⟩, by decide⟩
  intro devices
  rw [transformDevicesToEdges_eq, List.length_flatMap]
  simp only [Function.comp_def, List.length_map]

/-- **C10**: when the predicate-citation relation over the device data set is
acyclic, the depth recursion terminates for every device of the set (some
fuel makes it return a value); any value it returns is `0` exactly when the
device cites no predicates; and a device whose cited predicate ids all fail
to resolve is treated as sitting on roots — each missing predicate
contributes depth `0`, giving the device depth `1` — with no error. -/
theorem getDeviceDepth_spec (devices : List FDADevice)
    (hacyc : AcyclicCitations devices) :
    (∀ d ∈ devices, ∃ fuel, (getDeviceDepth devices fuel d).isSome) ∧
    (∀ (fuel : Nat) (d : FDADevice) (r : Nat),
      getDeviceDepth devices fuel d = some r →
      (r = 0 ↔ d.predicateDevices = [])) ∧
    (∀ (fuel : Nat) (d : FDADevice), d.predicateDevices ≠ [] →
      (∀ p ∈ d.predicateDevices,
        devices.find? (fun x => x.kNumber = p) = none) →
      getDeviceDepth devices (fuel + 1) d = some 1) := by
  obtain ⟨m, hm⟩ := hacyc
  refine ⟨?_, ?_, ?_⟩
  · intro d hd
    exact ⟨m d.kNumber + 1,
      getDeviceDepth_isSome_of_measure devices m hm (m d.kNumber) d hd le_rfl⟩
  · intro fuel d r h
    exact getDeviceDepth_eq_zero_iff devices fuel d r h
  · intro fuel d hne hmiss
    exact getDeviceDepth_missing_preds devices fuel d hne hmiss

/-- Witness for C10 on the three-device graph, whose citation relation is
acyclic via the generation-depth measure. -/
theorem getDeviceDepth_spec_witness :
    (∃ fuel, (getDeviceDepth threeDevices fuel devK021234).isSome) ∧
    ((0 : Nat) = 0 ↔ devK861712.predicateDevices = []) ∧
    getDeviceDepth threeDevices (0 + 1) danglingDevice = some 1 := by
  have hacyc : AcyclicCitations threeDevices := by
    refine ⟨exampleMeasure, ?_⟩
    intro d pd hd hcit
    obtain ⟨p, hp, hfind⟩ := hcit
    simp only [threeDevices, List.mem_cons, List.not_mem_nil, or_false] at hd
    rcases hd with rfl | rfl | rfl
    · simp [devK861712] at hp
    · have hp' : p = "K861712" := by simpa [devK921156] using hp
      subst hp'
      have hK : threeDevices.find? (fun x => x.kNumber = "K861712") =
          some devK861712 := by decide
      rw [hK] at hfind
      injection hfind with hpd
      subst hpd
      decide
    · have hp' : p = "K921156" ∨ p = "K861712" := by simpa [devK021234] using hp
      rcases hp' with rfl | rfl
      · have hK : threeDevices.find? (fun x => x.kNumber = "K921156") =
            some devK921156 := by decide
        rw [hK] at hfind
        injection hfind with hpd
        subst hpd
        decide
      · have hK : threeDevices.find? (fun x => x.kNumber = "K861712") =
            some devK861712 := by decide
        rw [hK] at hfind
        injection hfind with hpd
        subst hpd
        decide
  have h := getDeviceDepth_spec threeDevices hacyc
  exact ⟨h.1 devK021234 (by decide), h.2.1 1 devK861712 0 (by decide),
    h.2.2 0 danglingDevice (by decide) (by decide)⟩
